import Mathlib

/-!
Verification of the lane-detection tracking core (`Lane_Notebook.ipynb`).

The notebook's numeric computations are embedded shallowly over `ℚ`:
`numpy` float arrays become lists of rationals, the `ValueError` that
`ndarray.max()` raises on an empty array becomes `Except.error`, and the
`NaN` that `np.mean` yields on an empty selection becomes `none` in an
`Option ℚ` (NaN propagates through arithmetic the way `Option.bind`
propagates `none`).  Image-level operations (cv2 calls, the collaborator
modules `calibration_utils`, `binarization_utils`, `perspective_utils`,
and `line_utils`) are opaque to the notebook; they are abstracted as
fields of a `Collaborators` record so that the orchestration logic of
`process_pipeline` is embedded exactly as written.
-/

deriving instance DecidableEq for Except

namespace LaneDetection

/-- Quadratic fit coefficients (a, b, c) of `x = a*y^2 + b*y + c`.
Modelled from the spec: `FitCoefficients` in §3; the `Line` class holding
them lives in `line_utils`, which is not part of the notebook source. -/
structure FitCoefficients where
  a : ℚ
  b : ℚ
  c : ℚ
deriving DecidableEq, Repr

/-- Per-lane-line state.  Field names `detected`, `all_x`, `all_y`,
`curvature_meter`, `buffer_len` are the attributes the notebook reads on
`Line` objects.  The class itself is defined in `line_utils` (not in the
notebook source); `history` and its bounded-FIFO behaviour are
modelled from the spec §3/§4.1: a bounded ordered sequence of
`FitCoefficients`, max length `buffer_len`, oldest entry evicted when
full. -/
structure Line where
  detected : Bool
  all_x : List ℚ
  all_y : List ℚ
  curvature_meter : ℚ
  buffer_len : ℕ
  history : List FitCoefficients
deriving DecidableEq, Repr

/-- The numpy `.max()` reduction on a 1-d array: raises `ValueError` on an empty
array, otherwise returns the maximum element. -/
def npMax (l : List ℚ) : Except String ℚ :=
  match l with
  | [] => .error "zero-size array to reduction operation maximum"
  | x :: xs => .ok (xs.foldl max x)

/-- The numpy `np.mean` on a 1-d array: `NaN` (here `none`) on an empty array,
otherwise the arithmetic mean. -/
def npMean (l : List ℚ) : Option ℚ :=
  if l.isEmpty then none else some (l.sum / (l.length : ℚ))

/-- Boolean-mask indexing `xs[ys > t]`: the elements of `xs` whose
paired element of `ys` strictly exceeds `t`. -/
def maskSelect (xs ys : List ℚ) (t : ℚ) : List ℚ :=
  ((xs.zip ys).filter (fun p => t < p.2)).map Prod.fst

/-- Embedding of the notebook's `compute_offset_from_center(line_lt,
line_rt, frame_width)`.  `xm_per_pix` comes from the `globals` module
(not in the notebook source), so it is passed explicitly.  Both bottom
positions are computed only when both lines are detected; otherwise the
sentinel `-1` is returned.  `.error` marks the `ValueError` a call would
raise when a detected line has an empty `all_y`; `none` marks the `NaN`
produced when the bottom selection is empty. -/
def compute_offset_from_center (xm_per_pix : ℚ) (line_lt line_rt : Line)
    (frame_width : ℚ) : Except String (Option ℚ) :=
  if line_lt.detected && line_rt.detected then do
    let ymax_lt ← npMax line_lt.all_y
    let line_lt_bottom := npMean (maskSelect line_lt.all_x line_lt.all_y (0.95 * ymax_lt))
    let ymax_rt ← npMax line_rt.all_y
    let line_rt_bottom := npMean (maskSelect line_rt.all_x line_rt.all_y (0.95 * ymax_rt))
    let offset_meter : Option ℚ := do
      let lb ← line_lt_bottom
      let rb ← line_rt_bottom
      let lane_width := rb - lb
      let midpoint := frame_width / 2
      let offset_pix := |lb + lane_width / 2 - midpoint|
      pure (xm_per_pix * offset_pix)
    pure offset_meter
  else
    pure (some (-1))

/-- Maximum of a list of rationals, for stating the specification-side
formula on nonempty lists (agrees with `npMax` there). -/
def listMax (l : List ℚ) : ℚ :=
  l.foldl max (l.headD 0)

/-- Specification-side bottom position of one line, following the spec's
words: the mean x of pixel coordinates whose y exceeds 95% of that
line's maximum y. -/
def specBottomX (l : Line) : ℚ :=
  let sel := maskSelect l.all_x l.all_y (0.95 * listMax l.all_y)
  sel.sum / (sel.length : ℚ)

/-- Specification-side offset formula: lane midpoint minus frame centre,
absolute value, scaled by the x meter-per-pixel factor. -/
def specOffset (xm_per_pix : ℚ) (line_lt line_rt : Line) (frame_width : ℚ) : ℚ :=
  xm_per_pix *
    |specBottomX line_lt + (specBottomX line_rt - specBottomX line_lt) / 2 - frame_width / 2|

/-- The bounded-FIFO history insertion of the `Line` class.
Modelled from the spec: §3 "oldest entry evicted when full (FIFO)" and
§4.1 `update` "appends `fit_pixel`/`fit_meter` to history (evicting
oldest if at capacity)"; the `Line` class itself lives in `line_utils`,
which is not part of the notebook source.  Appending to a deque with
maximum length `buffer_len` keeps only the last `buffer_len` entries. -/
def updateHistory (buffer_len : ℕ) (history : List FitCoefficients)
    (new_fit : FitCoefficients) : List FitCoefficients :=
  let h := history ++ [new_fit]
  h.drop (h.length - buffer_len)

/-- Modelled from the spec: §4.1 `update(pixel_x, pixel_y, fit_pixel,
fit_meter)` appends the fit to history (evicting oldest if at capacity),
replaces stored pixel coordinates, sets `detected := true`. -/
def Line.update (l : Line) (pixel_x pixel_y : List ℚ)
    (fit_pixel : FitCoefficients) : Line :=
  { l with
    detected := true
    all_x := pixel_x
    all_y := pixel_y
    history := updateHistory l.buffer_len l.history fit_pixel }

/-- Insert a sequence of fits into a line, one `update` per fit (the
pixel coordinates are irrelevant to the history and are kept). -/
def insertFits (l : Line) (fs : List FitCoefficients) : Line :=
  fs.foldl (fun m f => m.update m.all_x m.all_y f) l

/-- External collaborators of the notebook pipeline: the functions it
imports from `calibration_utils`, `binarization_utils`,
`perspective_utils` and `line_utils`, plus the cv2 image compositing
used by `prepare_out_blend_frame` and the `frame.shape[1]` width
accessor.  Images (`Img`) and matrices (`Mat`) are abstract. -/
structure Collaborators (Img Mat : Type) where
  undistort : Img → Mat → Mat → Img
  binarize : Img → Img
  birdeye : Img → Img × Mat × Mat
  get_fits_by_previous_fits : Img → Line → Line → Line × Line × Img
  get_fits_by_sliding_windows : Img → Line → Line → ℕ → Line × Line × Img
  draw_back_onto_the_road : Img → Mat → Line → Line → Bool → Img
  compose_blend : Img → Img → Img → Img → Img
  frame_width : Img → ℚ

/-- Output of `prepare_out_blend_frame`: the composited image together
with the numeric values painted onto it by the two `cv2.putText` calls
(text rasterisation itself is not modelled; the painted numbers are
carried explicitly). -/
structure BlendOutput (Img : Type) where
  base : Img
  curvature_text : Option ℚ
  offset_text : Option ℚ
deriving Repr

/-- Embedding of the notebook's `prepare_out_blend_frame`.  The gray
rectangle, the three thumbnails and the slice assignments are abstracted
into `compose_blend`; the curvature text value is computed exactly as in
the source: `np.mean([line_lt.curvature_meter, line_rt.curvature_meter])`,
and the offset text value is the `offset_meter` argument displayed
as-is. -/
def prepare_out_blend_frame {Img Mat : Type} (c : Collaborators Img Mat)
    (blend_on_road img_binary img_birdeye img_fit : Img)
    (line_lt line_rt : Line) (offset_meter : Option ℚ) : BlendOutput Img :=
  { base := c.compose_blend blend_on_road img_binary img_birdeye img_fit
    curvature_text := npMean [line_lt.curvature_meter, line_rt.curvature_meter]
    offset_text := offset_meter }

/-- The session state the notebook keeps in module globals: the two
`Line` objects and the processed-frame counter. -/
structure PipelineState where
  line_lt : Line
  line_rt : Line
  processed_frames : ℕ
deriving DecidableEq, Repr

/-- The fit-selection branch of `process_pipeline`, exactly as written:
`if processed_frames > 0 and keep_state and line_lt.detected and
line_rt.detected` then the prior-fit (warm) search, else the
sliding-window (cold) search with `n_windows=9`. -/
def fitStep {Img Mat : Type} (c : Collaborators Img Mat) (img_birdeye : Img)
    (st : PipelineState) (keep_state : Bool) : Line × Line × Img :=
  if decide (0 < st.processed_frames) && keep_state
      && st.line_lt.detected && st.line_rt.detected then
    c.get_fits_by_previous_fits img_birdeye st.line_lt st.line_rt
  else
    c.get_fits_by_sliding_windows img_birdeye st.line_lt st.line_rt 9

/-- Embedding of the notebook's `process_pipeline(frame, keep_state)`,
with the ambient globals made an explicit `PipelineState` and the
imported collaborator functions passed as `c`.  The `Except` layer
carries the `ValueError` that `compute_offset_from_center` would raise
on a detected line with an empty pixel set. -/
def process_pipeline {Img Mat : Type} (c : Collaborators Img Mat)
    (xm_per_pix : ℚ) (mtx dist : Mat) (st : PipelineState) (frame : Img)
    (keep_state : Bool) : Except String (BlendOutput Img × PipelineState) := do
  let img_undistorted := c.undistort frame mtx dist
  let img_binary := c.binarize img_undistorted
  let (img_birdeye, _M, Minv) := c.birdeye img_binary
  let (line_lt, line_rt, img_fit) := fitStep c img_birdeye st keep_state
  let offset_meter ← compute_offset_from_center xm_per_pix line_lt line_rt
    (c.frame_width frame)
  let blend_on_road := c.draw_back_onto_the_road img_undistorted Minv line_lt
    line_rt keep_state
  let blend_output := prepare_out_blend_frame c blend_on_road img_binary
    img_birdeye img_fit line_lt line_rt offset_meter
  pure (blend_output, ⟨line_lt, line_rt, st.processed_frames + 1⟩)

/-- Shift every pixel x-coordinate of a line by `d` (the uniform lateral
shift used in the symmetric-lines property). -/
def shiftX (d : ℚ) (l : Line) : Line :=
  { l with all_x := l.all_x.map (fun x => x + d) }

/-- The bottom selection of a line: the x-coordinates of pixels whose
y strictly exceeds 95% of the line's maximum y. -/
def bottomSel (l : Line) : List ℚ :=
  maskSelect l.all_x l.all_y (0.95 * listMax l.all_y)

end LaneDetection

namespace LaneDetection

theorem npMax_of_ne_nil (l : List ℚ) (h : l ≠ []) : npMax l = .ok (listMax l) := by
  cases l with
  | nil => exact absurd rfl h
  | cons x xs => simp [npMax, listMax]

theorem npMean_of_ne_nil (l : List ℚ) (h : l ≠ []) :
    npMean l = some (l.sum / (l.length : ℚ)) := by
  cases l with
  | nil => exact absurd rfl h
  | cons x xs => simp [npMean]

theorem specBottomX_eq (l : Line) : specBottomX l
    = (bottomSel l).sum / ((bottomSel l).length : ℚ) := rfl

/-- Both lines detected and with usable pixels: the notebook's offset
computation succeeds and returns exactly the spec-side formula. -/
theorem compute_offset_eval (xm : ℚ) (line_lt line_rt : Line) (w : ℚ)
    (hlt : line_lt.detected = true) (hrt : line_rt.detected = true)
    (hly : line_lt.all_y ≠ []) (hry : line_rt.all_y ≠ [])
    (hsl : bottomSel line_lt ≠ []) (hsr : bottomSel line_rt ≠ []) :
    compute_offset_from_center xm line_lt line_rt w
      = .ok (some (specOffset xm line_lt line_rt w)) := by
  rw [compute_offset_from_center, hlt, hrt]
  simp only [Bool.and_self, if_true]
  rw [npMax_of_ne_nil _ hly, npMax_of_ne_nil _ hry]
  simp only [Bind.bind, Except.instMonad, Except.bind]
  rw [npMean_of_ne_nil (maskSelect line_lt.all_x line_lt.all_y
        (0.95 * listMax line_lt.all_y)) hsl,
      npMean_of_ne_nil (maskSelect line_rt.all_x line_rt.all_y
        (0.95 * listMax line_rt.all_y)) hsr]
  rfl

theorem length_updateHistory (k : ℕ) (h : List FitCoefficients)
    (f : FitCoefficients) : (updateHistory k h f).length ≤ k := by
  simp [updateHistory]
  omega

theorem updateHistory_eq (k : ℕ) (h : List FitCoefficients) (f : FitCoefficients) :
    updateHistory k h f = (h ++ [f]).drop (h.length + 1 - k) := by
  simp [updateHistory]

theorem foldl_updateHistory (k : ℕ) (fs : List FitCoefficients) :
    ∀ h : List FitCoefficients, h.length ≤ k →
      fs.foldl (updateHistory k) h = (h ++ fs).drop (h.length + fs.length - k) := by
  induction fs with
  | nil => intro h hh; simp [Nat.sub_eq_zero_of_le hh]
  | cons f fs ih =>
    intro h hh
    rw [List.foldl_cons]
    rw [ih (updateHistory k h f) (length_updateHistory k h f)]
    have hlen : (updateHistory k h f).length = h.length + 1 - (h.length + 1 - k) := by
      simp [updateHistory]
    have hdrop : updateHistory k h f ++ fs
        = ((h ++ [f]) ++ fs).drop (h.length + 1 - k) := by
      rw [updateHistory_eq]
      exact (List.drop_append_of_le_length (by simp)).symm
    rw [hdrop, List.drop_drop]
    rw [show (h ++ [f]) ++ fs = h ++ f :: fs by simp]
    congr 1
    rw [hlen]
    simp only [List.length_cons]
    omega

theorem insertFits_buffer_len (fs : List FitCoefficients) :
    ∀ l : Line, (insertFits l fs).buffer_len = l.buffer_len := by
  induction fs with
  | nil => intro l; rfl
  | cons f fs ih =>
    intro l
    rw [insertFits, List.foldl_cons]
    exact ih (l.update l.all_x l.all_y f)

theorem insertFits_history (fs : List FitCoefficients) :
    ∀ l : Line, (insertFits l fs).history
      = fs.foldl (updateHistory l.buffer_len) l.history := by
  induction fs with
  | nil => intro l; rfl
  | cons f fs ih =>
    intro l
    rw [insertFits, List.foldl_cons, List.foldl_cons]
    exact ih (l.update l.all_x l.all_y f)

theorem maskSelect_nil_right (xs : List ℚ) (t : ℚ) : maskSelect xs [] t = [] := by
  simp [maskSelect]

theorem maskSelect_cons (x y t : ℚ) (xs ys : List ℚ) :
    maskSelect (x :: xs) (y :: ys) t
      = if t < y then x :: maskSelect xs ys t else maskSelect xs ys t := by
  by_cases h : t < y
  · simp [maskSelect, List.filter_cons, h]
  · simp [maskSelect, List.filter_cons, h]

theorem maskSelect_map_add (d t : ℚ) (xs : List ℚ) :
    ∀ ys : List ℚ, maskSelect (xs.map (fun x => x + d)) ys t
      = (maskSelect xs ys t).map (fun x => x + d) := by
  induction xs with
  | nil => intro ys; simp [maskSelect]
  | cons x xs ih =>
    intro ys
    cases ys with
    | nil => simp [maskSelect]
    | cons y ys =>
      rw [List.map_cons, maskSelect_cons, maskSelect_cons]
      split
      · rw [List.map_cons, ih]
      · exact ih ys

theorem sum_map_add (d : ℚ) (l : List ℚ) :
    (l.map (fun x => x + d)).sum = l.sum + l.length * d := by
  induction l with
  | nil => simp
  | cons x xs ih => simp [ih]; ring

theorem bottomSel_shiftX (d : ℚ) (l : Line) :
    bottomSel (shiftX d l) = (bottomSel l).map (fun x => x + d) := by
  rw [bottomSel, bottomSel, shiftX]
  exact maskSelect_map_add d _ l.all_x l.all_y

theorem specBottomX_shiftX (d : ℚ) (l : Line) (hs : bottomSel l ≠ []) :
    specBottomX (shiftX d l) = specBottomX l + d := by
  have hn : ((bottomSel l).length : ℚ) ≠ 0 := by
    exact_mod_cast (List.length_pos.mpr hs).ne'
  rw [specBottomX_eq, specBottomX_eq, bottomSel_shiftX, sum_map_add,
    List.length_map]
  field_simp
  ring

/-- A line marked undetected, with stale empty pixel data. -/
def lineUndet : Line :=
  { detected := false, all_x := [], all_y := [], curvature_meter := 0,
    buffer_len := 2, history := [] }

/-- A detected left line: bottom pixels at x = 30 (only the pixel with
y = 100 survives the 95%-of-max-y cut). -/
def lineL : Line :=
  { detected := true, all_x := [30, 32], all_y := [100, 10],
    curvature_meter := 180, buffer_len := 2, history := [] }

/-- A detected right line: bottom pixel at x = 70. -/
def lineR : Line :=
  { detected := true, all_x := [70], all_y := [100],
    curvature_meter := 220, buffer_len := 2, history := [] }

/-- If either line is undetected, the offset computation takes the
else-branch and returns the sentinel. -/
theorem offset_sentinel_aux (xm : ℚ) (line_lt line_rt : Line)
    (w : ℚ) (h : line_lt.detected = false ∨ line_rt.detected = false) :
    compute_offset_from_center xm line_lt line_rt w = .ok (some (-1)) := by
  rw [compute_offset_from_center]
  rcases h with h | h <;> rw [h] <;>
    simp [Pure.pure, Except.instMonad, Except.pure]

/-- C1: whenever either line's `detected` flag is false,
`compute_offset_from_center` returns the sentinel `-1` without raising:
the computed-offset path is taken only when both flags are true. -/
theorem offset_sentinel_when_undetected (xm : ℚ) (line_lt line_rt : Line)
    (w : ℚ) (h : line_lt.detected = false ∨ line_rt.detected = false) :
    compute_offset_from_center xm line_lt line_rt w = .ok (some (-1)) :=
  offset_sentinel_aux xm line_lt line_rt w h

/-- Witness for C1 at a concrete undetected left line. -/
theorem offset_sentinel_when_undetected_witness :
    compute_offset_from_center 1 lineUndet lineR 100 = .ok (some (-1)) :=
  offset_sentinel_when_undetected 1 lineUndet lineR 100 (Or.inl rfl)

/-- C3: with both lines detected and usable pixels, the returned offset
is `xm_per_pix * |(left_bottom + (right_bottom - left_bottom)/2) - w/2|`,
each bottom x being the mean over pixels whose y strictly exceeds 95% of
that line's maximum y. -/
theorem offset_formula_matches_spec (xm : ℚ) (line_lt line_rt : Line) (w : ℚ)
    (hlt : line_lt.detected = true) (hrt : line_rt.detected = true)
    (hly : line_lt.all_y ≠ []) (hry : line_rt.all_y ≠ [])
    (hsl : bottomSel line_lt ≠ []) (hsr : bottomSel line_rt ≠ []) :
    compute_offset_from_center xm line_lt line_rt w
      = .ok (some (specOffset xm line_lt line_rt w)) :=
  compute_offset_eval xm line_lt line_rt w hlt hrt hly hry hsl hsr

/-- Witness for C3 at concrete detected lines. -/
theorem offset_formula_matches_spec_witness :
    compute_offset_from_center 1 lineL lineR 100
      = .ok (some (specOffset 1 lineL lineR 100)) :=
  offset_formula_matches_spec 1 lineL lineR 100 rfl rfl
    (by simp [lineL]) (by simp [lineR])
    (by norm_num [bottomSel, maskSelect, listMax, lineL])
    (by norm_num [bottomSel, maskSelect, listMax, lineR])

/-- C10: with both lines detected, nonempty bottom selections and a
non-negative scale factor, the offset is a non-negative value (the
absolute value discards the deviation's direction), hence never equal to
the `-1` sentinel. -/
theorem offset_nonneg_when_detected (xm : ℚ) (line_lt line_rt : Line) (w : ℚ)
    (hx : 0 ≤ xm)
    (hlt : line_lt.detected = true) (hrt : line_rt.detected = true)
    (hly : line_lt.all_y ≠ []) (hry : line_rt.all_y ≠ [])
    (hsl : bottomSel line_lt ≠ []) (hsr : bottomSel line_rt ≠ []) :
    ∃ v, compute_offset_from_center xm line_lt line_rt w = .ok (some v)
      ∧ 0 ≤ v ∧ v ≠ -1 := by
  have h0 : 0 ≤ specOffset xm line_lt line_rt w := by
    rw [specOffset]
    exact mul_nonneg hx (abs_nonneg _)
  refine ⟨specOffset xm line_lt line_rt w,
    compute_offset_eval xm line_lt line_rt w hlt hrt hly hry hsl hsr, h0, ?_⟩
  intro hc
  rw [hc] at h0
  norm_num at h0

/-- Witness for C10 at concrete detected lines. -/
theorem offset_nonneg_when_detected_witness :
    ∃ v, compute_offset_from_center 1 lineL lineR 100 = .ok (some v)
      ∧ 0 ≤ v ∧ v ≠ -1 :=
  offset_nonneg_when_detected 1 lineL lineR 100 (by norm_num) rfl rfl
    (by simp [lineL]) (by simp [lineR])
    (by norm_num [bottomSel, maskSelect, listMax, lineL])
    (by norm_num [bottomSel, maskSelect, listMax, lineR])

/-- C5: the curvature value painted on the output frame is
`np.mean([line_lt.curvature_meter, line_rt.curvature_meter])`, the
arithmetic mean of the two lines' curvature estimates. -/
theorem reported_curvature_is_mean {Img Mat : Type} (c : Collaborators Img Mat)
    (blend_on_road img_binary img_birdeye img_fit : Img)
    (line_lt line_rt : Line) (offset_meter : Option ℚ) :
    (prepare_out_blend_frame c blend_on_road img_binary img_birdeye img_fit
        line_lt line_rt offset_meter).curvature_text
      = some ((line_lt.curvature_meter + line_rt.curvature_meter) / 2) := by
  simp [prepare_out_blend_frame, npMean]

/-- C4 (amended): at a symmetric configuration the offset is 0, and
after a uniform shift of both lines' x-coordinates by `d` pixels the
offset is `xm_per_pix * |d|` — the magnitude of the shift; the sign of
the direction is discarded by the absolute value. -/
theorem offset_symmetric_zero_and_shift_abs (xm d : ℚ)
    (line_lt line_rt : Line) (w : ℚ)
    (hlt : line_lt.detected = true) (hrt : line_rt.detected = true)
    (hly : line_lt.all_y ≠ []) (hry : line_rt.all_y ≠ [])
    (hsl : bottomSel line_lt ≠ []) (hsr : bottomSel line_rt ≠ [])
    (hsym : specBottomX line_lt + specBottomX line_rt = w) :
    compute_offset_from_center xm line_lt line_rt w = .ok (some 0)
    ∧ compute_offset_from_center xm (shiftX d line_lt) (shiftX d line_rt) w
        = .ok (some (xm * |d|)) := by
  constructor
  · rw [compute_offset_eval xm line_lt line_rt w hlt hrt hly hry hsl hsr]
    have h1 : specBottomX line_lt
        + (specBottomX line_rt - specBottomX line_lt) / 2 - w / 2 = 0 := by
      linarith
    rw [specOffset, h1, abs_zero, mul_zero]
  · have hsl2 : bottomSel (shiftX d line_lt) ≠ [] := by
      rw [bottomSel_shiftX]
      simpa using hsl
    have hsr2 : bottomSel (shiftX d line_rt) ≠ [] := by
      rw [bottomSel_shiftX]
      simpa using hsr
    rw [compute_offset_eval xm (shiftX d line_lt) (shiftX d line_rt) w
      hlt hrt hly hry hsl2 hsr2]
    have h2 : specBottomX (shiftX d line_lt)
        + (specBottomX (shiftX d line_rt) - specBottomX (shiftX d line_lt)) / 2
        - w / 2 = d := by
      rw [specBottomX_shiftX d line_lt hsl, specBottomX_shiftX d line_rt hsr]
      linarith
    rw [specOffset, h2]

/-- Witness for C4 (amended) at concrete symmetric lines shifted by -3. -/
theorem offset_symmetric_zero_and_shift_abs_witness :
    compute_offset_from_center 2 lineL lineR 100 = .ok (some 0)
    ∧ compute_offset_from_center 2 (shiftX (-3) lineL) (shiftX (-3) lineR) 100
        = .ok (some (2 * |(-3 : ℚ)|)) :=
  offset_symmetric_zero_and_shift_abs 2 (-3) lineL lineR 100 rfl rfl
    (by simp [lineL]) (by simp [lineR])
    (by norm_num [bottomSel, maskSelect, listMax, lineL])
    (by norm_num [bottomSel, maskSelect, listMax, lineR])
    (by norm_num [specBottomX, maskSelect, listMax, lineL, lineR])

/-- Counterexample to C4 as stated: at a symmetric configuration
(bottom positions 30 and 70, frame width 100), shifting both lines
uniformly by Δ = -10 pixels makes the code return
`xm_per_pix * 10`, not `xm_per_pix * Δ = -10` (the absolute value
discards the sign of the shift). -/
theorem offset_shift_counterexample :
    specBottomX lineL + specBottomX lineR = 100
    ∧ compute_offset_from_center 1 (shiftX (-10) lineL) (shiftX (-10) lineR) 100
        = .ok (some 10)
    ∧ compute_offset_from_center 1 (shiftX (-10) lineL) (shiftX (-10) lineR) 100
        ≠ .ok (some (1 * (-10 : ℚ))) := by
  refine ⟨by norm_num [specBottomX, maskSelect, listMax, lineL, lineR], ?_, ?_⟩
  · norm_num [compute_offset_from_center, npMax, npMean, maskSelect, shiftX,
      lineL, lineR, Bind.bind, Pure.pure, Except.instMonad, Except.bind,
      Except.pure, Option.bind]
  · norm_num [compute_offset_from_center, npMax, npMean, maskSelect, shiftX,
      lineL, lineR, Bind.bind, Pure.pure, Except.instMonad, Except.bind,
      Except.pure, Option.bind]

/-- C8: one `update` never grows the history beyond the buffer size,
and inserting k+1 fits into an empty history of buffer size k leaves
exactly k entries with the oldest fit evicted (FIFO order: what remains
is the input sequence minus its first element). -/
theorem history_bounded_fifo (k : ℕ) (l m : Line) (fs : List FitCoefficients)
    (px py : List ℚ) (f : FitCoefficients)
    (hbuf : l.buffer_len = k) (hhist : l.history = [])
    (hlen : fs.length = k + 1) :
    (m.update px py f).history.length ≤ m.buffer_len
    ∧ (insertFits l fs).history = fs.drop 1
    ∧ (insertFits l fs).history.length = k := by
  have hmain : (insertFits l fs).history = fs.drop 1 := by
    rw [insertFits_history, hbuf, hhist]
    rw [foldl_updateHistory k fs [] (by simp)]
    simp only [List.nil_append, List.length_nil]
    congr 1
    omega
  refine ⟨length_updateHistory m.buffer_len m.history f, hmain, ?_⟩
  rw [hmain, List.length_drop, hlen]
  omega

/-- Witness for C8 at buffer size 2 and three inserted fits. -/
theorem history_bounded_fifo_witness :
    (lineL.update [] [] ⟨5, 5, 5⟩).history.length ≤ lineL.buffer_len
    ∧ (insertFits lineUndet [⟨1, 0, 0⟩, ⟨2, 0, 0⟩, ⟨3, 0, 0⟩]).history
        = ([⟨1, 0, 0⟩, ⟨2, 0, 0⟩, ⟨3, 0, 0⟩] : List FitCoefficients).drop 1
    ∧ (insertFits lineUndet [⟨1, 0, 0⟩, ⟨2, 0, 0⟩, ⟨3, 0, 0⟩]).history.length = 2 :=
  history_bounded_fifo 2 lineUndet lineL [⟨1, 0, 0⟩, ⟨2, 0, 0⟩, ⟨3, 0, 0⟩]
    [] [] ⟨5, 5, 5⟩ rfl rfl rfl

/-- The bird's-eye image computed by the pipeline before the fit step. -/
def birdeyeImg {Img Mat : Type} (c : Collaborators Img Mat) (mtx dist : Mat)
    (frame : Img) : Img :=
  (c.birdeye (c.binarize (c.undistort frame mtx dist))).1

/-- The pair of lines (and fit visualisation) produced by the fit step
of `process_pipeline` on a given state and frame. -/
def fitOut {Img Mat : Type} (c : Collaborators Img Mat) (mtx dist : Mat)
    (st : PipelineState) (frame : Img) (keep_state : Bool) : Line × Line × Img :=
  fitStep c (birdeyeImg c mtx dist frame) st keep_state

/-- Unfolding of the pipeline: everything after the fit step is a bind
over the offset computation; the final state is built from the fit-step
lines and the incremented counter only. -/
theorem process_pipeline_eq {Img Mat : Type} (c : Collaborators Img Mat)
    (xm : ℚ) (mtx dist : Mat) (st : PipelineState) (frame : Img)
    (keep_state : Bool) :
    process_pipeline c xm mtx dist st frame keep_state
      = (compute_offset_from_center xm (fitOut c mtx dist st frame keep_state).1
          (fitOut c mtx dist st frame keep_state).2.1 (c.frame_width frame)).bind
          (fun offset_meter => .ok
            (prepare_out_blend_frame c
              (c.draw_back_onto_the_road (c.undistort frame mtx dist)
                (c.birdeye (c.binarize (c.undistort frame mtx dist))).2.2
                (fitOut c mtx dist st frame keep_state).1
                (fitOut c mtx dist st frame keep_state).2.1 keep_state)
              (c.binarize (c.undistort frame mtx dist))
              (birdeyeImg c mtx dist frame)
              (fitOut c mtx dist st frame keep_state).2.2
              (fitOut c mtx dist st frame keep_state).1
              (fitOut c mtx dist st frame keep_state).2.1 offset_meter,
            ⟨(fitOut c mtx dist st frame keep_state).1,
              (fitOut c mtx dist st frame keep_state).2.1,
              st.processed_frames + 1⟩)) := rfl

/-- The offset computation cannot fail when every detected line has a
nonempty pixel set (the guarantee spelled out for PixelLocator: zero
pixels found ⇒ `detected` is false). -/
theorem compute_offset_isOk (xm : ℚ) (line_lt line_rt : Line) (w : ℚ)
    (hl : line_lt.detected = true → line_lt.all_y ≠ [])
    (hr : line_rt.detected = true → line_rt.all_y ≠ []) :
    ∃ o, compute_offset_from_center xm line_lt line_rt w = .ok o := by
  rw [compute_offset_from_center]
  cases hlt : line_lt.detected with
  | false =>
    refine ⟨some (-1), ?_⟩
    simp [Pure.pure, Except.instMonad, Except.pure]
  | true =>
    cases hrt : line_rt.detected with
    | false =>
      refine ⟨some (-1), ?_⟩
      simp [Pure.pure, Except.instMonad, Except.pure]
    | true =>
      simp only [Bool.and_self, if_true]
      rw [npMax_of_ne_nil _ (hl hlt), npMax_of_ne_nil _ (hr hrt)]
      exact ⟨_, rfl⟩

/-- C2: the prior-fit (warm) search runs exactly when the frame counter
is positive, `keep_state` is enabled and both lines are detected; in
every other case — including whenever `keep_state = false` — the
sliding-window (cold) search with 9 windows runs. -/
theorem fit_branch_selection {Img Mat : Type} (c : Collaborators Img Mat)
    (img_birdeye : Img) (st : PipelineState) (keep_state : Bool) :
    ((0 < st.processed_frames ∧ keep_state = true
        ∧ st.line_lt.detected = true ∧ st.line_rt.detected = true) →
      fitStep c img_birdeye st keep_state
        = c.get_fits_by_previous_fits img_birdeye st.line_lt st.line_rt)
    ∧ (¬(0 < st.processed_frames ∧ keep_state = true
        ∧ st.line_lt.detected = true ∧ st.line_rt.detected = true) →
      fitStep c img_birdeye st keep_state
        = c.get_fits_by_sliding_windows img_birdeye st.line_lt st.line_rt 9)
    ∧ (keep_state = false →
      fitStep c img_birdeye st keep_state
        = c.get_fits_by_sliding_windows img_birdeye st.line_lt st.line_rt 9) := by
  have hb : (decide (0 < st.processed_frames) && keep_state
      && st.line_lt.detected && st.line_rt.detected) = true
      ↔ (0 < st.processed_frames ∧ keep_state = true
        ∧ st.line_lt.detected = true ∧ st.line_rt.detected = true) := by
    simp [Bool.and_eq_true, and_assoc]
  refine ⟨?_, ?_, ?_⟩
  · intro h
    rw [fitStep, if_pos (hb.mpr h)]
  · intro h
    rw [fitStep, if_neg (fun hc => h (hb.mp hc))]
  · intro h
    rw [fitStep, if_neg (fun hc => absurd ((hb.mp hc).2.1) (by simp [h]))]

/-- Sample collaborators over ℕ-coded images for concrete witnesses:
the warm search keeps the lines, the cold search marks them
undetected. -/
def sampleCollabs : Collaborators ℕ ℕ :=
  { undistort := fun f _ _ => f
    binarize := fun f => f
    birdeye := fun f => (f, 0, 0)
    get_fits_by_previous_fits := fun _ l r => (l, r, 1)
    get_fits_by_sliding_windows := fun _ l r _ =>
      ({ l with detected := false }, { r with detected := false }, 2)
    draw_back_onto_the_road := fun f _ _ _ _ => f
    compose_blend := fun f _ _ _ => f
    frame_width := fun _ => 100 }

/-- A warm session state: one frame already processed, both lines
detected. -/
def sampleState : PipelineState :=
  { line_lt := lineL, line_rt := lineR, processed_frames := 1 }

/-- Witness for C2 at a concrete warm state. -/
theorem fit_branch_selection_witness :
    fitStep sampleCollabs 5 sampleState true
      = sampleCollabs.get_fits_by_previous_fits 5 sampleState.line_lt
          sampleState.line_rt :=
  (fit_branch_selection sampleCollabs 5 sampleState true).1
    ⟨Nat.one_pos, rfl, rfl, rfl⟩

/-- C6: whenever the fit step yields lines whose detected flags are
backed by pixels, `process_pipeline` completes and its resulting session
state carries the frame counter incremented by exactly one. -/
theorem process_pipeline_increments_counter {Img Mat : Type}
    (c : Collaborators Img Mat) (xm : ℚ) (mtx dist : Mat)
    (st : PipelineState) (frame : Img) (keep_state : Bool)
    (hl : (fitOut c mtx dist st frame keep_state).1.detected = true
      → (fitOut c mtx dist st frame keep_state).1.all_y ≠ [])
    (hr : (fitOut c mtx dist st frame keep_state).2.1.detected = true
      → (fitOut c mtx dist st frame keep_state).2.1.all_y ≠ []) :
    ∃ out, process_pipeline c xm mtx dist st frame keep_state = .ok out
      ∧ out.2.processed_frames = st.processed_frames + 1 := by
  obtain ⟨o, ho⟩ := compute_offset_isOk xm
    (fitOut c mtx dist st frame keep_state).1
    (fitOut c mtx dist st frame keep_state).2.1 (c.frame_width frame) hl hr
  rw [process_pipeline_eq, ho]
  exact ⟨_, rfl, rfl⟩

/-- Witness for C6 at the sample collaborators on a still image. -/
theorem process_pipeline_increments_counter_witness :
    ∃ out, process_pipeline sampleCollabs 1 0 0 sampleState 7 false = .ok out
      ∧ out.2.processed_frames = sampleState.processed_frames + 1 :=
  process_pipeline_increments_counter sampleCollabs 1 0 0 sampleState 7 false
    (fun _ => by simp [fitOut, birdeyeImg, fitStep, sampleCollabs, sampleState, lineL])
    (fun _ => by simp [fitOut, birdeyeImg, fitStep, sampleCollabs, sampleState, lineR])

/-- C7: on every completed call, the resulting session state is exactly
the fit-step lines plus the incremented counter — the offset estimator
(`compute_offset_from_center`) and the renderer
(`prepare_out_blend_frame`) read the lines but contribute nothing to the
state. -/
theorem estimator_renderer_preserve_state {Img Mat : Type}
    (c : Collaborators Img Mat) (xm : ℚ) (mtx dist : Mat)
    (st : PipelineState) (frame : Img) (keep_state : Bool)
    (out : BlendOutput Img × PipelineState)
    (hok : process_pipeline c xm mtx dist st frame keep_state = .ok out) :
    out.2.line_lt = (fitOut c mtx dist st frame keep_state).1
    ∧ out.2.line_rt = (fitOut c mtx dist st frame keep_state).2.1
    ∧ out.2.processed_frames = st.processed_frames + 1 := by
  rw [process_pipeline_eq] at hok
  cases hco : compute_offset_from_center xm
      (fitOut c mtx dist st frame keep_state).1
      (fitOut c mtx dist st frame keep_state).2.1 (c.frame_width frame) with
  | error e =>
    rw [hco] at hok
    exact absurd hok (by simp [Except.bind])
  | ok o =>
    rw [hco] at hok
    simp only [Except.bind, Except.ok.injEq] at hok
    rw [← hok]
    exact ⟨rfl, rfl, rfl⟩

/-- Witness for C7 at the sample collaborators on a still image. -/
theorem estimator_renderer_preserve_state_witness :
    (prepare_out_blend_frame sampleCollabs 7 7 7 2
          { lineL with detected := false } { lineR with detected := false }
          (some (-1)),
        (⟨{ lineL with detected := false }, { lineR with detected := false },
          2⟩ : PipelineState)).2.line_lt
      = (fitOut sampleCollabs 0 0 sampleState 7 false).1
    ∧ (prepare_out_blend_frame sampleCollabs 7 7 7 2
          { lineL with detected := false } { lineR with detected := false }
          (some (-1)),
        (⟨{ lineL with detected := false }, { lineR with detected := false },
          2⟩ : PipelineState)).2.line_rt
      = (fitOut sampleCollabs 0 0 sampleState 7 false).2.1
    ∧ (prepare_out_blend_frame sampleCollabs 7 7 7 2
          { lineL with detected := false } { lineR with detected := false }
          (some (-1)),
        (⟨{ lineL with detected := false }, { lineR with detected := false },
          2⟩ : PipelineState)).2.processed_frames
      = sampleState.processed_frames + 1 :=
  estimator_renderer_preserve_state sampleCollabs 1 0 0 sampleState 7 false _
    (by rw [process_pipeline_eq]
        rw [offset_sentinel_aux 1 _ _ _ (Or.inl rfl)]
        rfl)

/-- C9: the pipeline is deterministic — equal session states, equal
input frames and equal `keep_state` flags yield equal outputs and equal
resulting states (the embedding passes the notebook's globals
explicitly, and no other input exists). -/
theorem process_pipeline_deterministic {Img Mat : Type}
    (c : Collaborators Img Mat) (xm : ℚ) (mtx dist : Mat)
    (st1 st2 : PipelineState) (f1 f2 : Img) (k1 k2 : Bool)
    (hs : st1 = st2) (hf : f1 = f2) (hk : k1 = k2) :
    process_pipeline c xm mtx dist st1 f1 k1
      = process_pipeline c xm mtx dist st2 f2 k2 := by
  subst hs; subst hf; subst hk; rfl

/-- Witness for C9 at concrete equal inputs. -/
theorem process_pipeline_deterministic_witness :
    process_pipeline sampleCollabs 1 0 0 sampleState 7 true
      = process_pipeline sampleCollabs 1 0 0 sampleState 7 true :=
  process_pipeline_deterministic sampleCollabs 1 0 0 sampleState sampleState
    7 7 true true rfl rfl rfl

end LaneDetection
